import Mathlib

/-!
Verification of `scripts/compress_glb.py`, a Blender (`bpy`) driver script that
imports a GLB file, clears the default scene first, and re-exports the scene as
a Draco-compressed GLB, printing a size report.

The script is embedded shallowly: its straight-line control flow becomes an
interpreter `runScript` over an abstract `Host` recording the behaviour of the
external Blender API (`bpy.ops.*`) and of `os.path.getsize`.  Every host call
the script makes is recorded in an event trace; the scene-state effects of the
three scene operators the script uses (`select_all`, `delete`,
`import_scene.gltf`) are modelled from Blender's documented semantics.
Machine floats of the size report are modelled as exact rationals.
-/

namespace CompressGlb

/-- The Python exceptions the script can encounter: `ValueError` from
`list.index`, `IndexError` from `sys.argv[...]`, `ZeroDivisionError` from the
ratio computation, `OSError` from `os.path.getsize`, and an arbitrary
exception raised by a Blender operator (carrying its message). -/
inductive PyError where
  | valueError : PyError
  | indexError : PyError
  | zeroDivisionError : PyError
  | osError : PyError
  | hostError : String → PyError
deriving DecidableEq, Repr

/-- The keyword arguments the script passes to `bpy.ops.export_scene.gltf`
(lines 29-42 of `compress_glb.py`). -/
structure ExportConfig where
  export_format : String
  export_draco_mesh_compression_enable : Bool
  export_draco_mesh_compression_level : Nat
  export_draco_position_quantization : Nat
  export_draco_normal_quantization : Nat
  export_draco_texcoord_quantization : Nat
  export_texture_dir : String
  export_image_format : String
  export_animations : Bool
  export_morph : Bool
  export_skins : Bool
deriving DecidableEq, Repr

/-- The fixed configuration dictionary the script passes to the exporter,
transcribed literally from lines 29-42 of `compress_glb.py`. -/
def scriptExportConfig : ExportConfig where
  export_format := "GLB"
  export_draco_mesh_compression_enable := true
  export_draco_mesh_compression_level := 6
  export_draco_position_quantization := 14
  export_draco_normal_quantization := 10
  export_draco_texcoord_quantization := 12
  export_texture_dir := ""
  export_image_format := "AUTO"
  export_animations := true
  export_morph := true
  export_skins := true

/-- Python `list.index`: position of the first occurrence, `ValueError` when
the element is absent. -/
def pyIndex (xs : List String) (a : String) : Except PyError Nat :=
  match xs with
  | [] => .error .valueError
  | x :: rest => if x = a then .ok 0 else (pyIndex rest a).map (· + 1)

/-- Python subscript `xs[i]` for a non-negative index: `IndexError` when out of
range. -/
def pyGetItem : List String → Nat → Except PyError String
  | [], _ => .error .indexError
  | s :: _, 0 => .ok s
  | _ :: rest, n + 1 => pyGetItem rest n

/-- Lines 6-7 of the script: `input_file = sys.argv[sys.argv.index("--") + 1]`
and `output_file = sys.argv[sys.argv.index("--") + 2]` (the index of `"--"` is
recomputed on line 7, exactly as in the source). -/
def parseArgs (argv : List String) : Except PyError (String × String) :=
  match pyIndex argv "--" with
  | .error e => .error e
  | .ok i =>
    match pyGetItem argv (i + 1) with
    | .error e => .error e
    | .ok inputFile =>
      match pyIndex argv "--" with
      | .error e => .error e
      | .ok j =>
        match pyGetItem argv (j + 2) with
        | .error e => .error e
        | .ok outputFile => .ok (inputFile, outputFile)

/-- Observable events of a run: stdout prints and host-API calls.  The export
event records the scene objects visible to the exporter at export time; the
three report prints record the exact rational values the script formats.
`sysExit` is in the vocabulary so that "the script never sets an explicit exit
code" is expressible; the interpreter never emits it. -/
inductive Event where
  | printed : String → Event
  | selectAll : String → Event
  | deleteObjects : Event
  | importGltf : String → Event
  | exportGltf : String → ExportConfig → List String → Event
  | getSize : String → Event
  | printedInputSize : ℚ → Event
  | printedOutputSize : ℚ → Event
  | printedRatio : ℚ → Event
  | sysExit : Nat → Event
deriving DecidableEq, Repr

/-- Blender scene state as far as the script touches it: the objects of the
current scene and the current selection. -/
structure BpyState where
  objects : List String
  selected : List String
deriving DecidableEq, Repr

/-- `bpy.ops.object.select_all(action='SELECT')` (line 12): selects every
object of the scene (modelled from Blender's documented operator semantics). -/
def opSelectAllSelect (st : BpyState) : BpyState :=
  { st with selected := st.objects }

/-- `bpy.ops.object.delete()` (line 13): removes every selected object from the
scene; the selection becomes empty (modelled from Blender's documented operator
semantics). -/
def opDelete (st : BpyState) : BpyState :=
  { objects := st.objects.filter (fun o => !(st.selected.contains o)),
    selected := [] }

/-- Behaviour of the external collaborators (Blender's importer/exporter and
the filesystem), a parameter of the model: which objects importing a file adds
to the scene, whether import/export raise (and with what message), and what
`os.path.getsize` returns for a path after the run reaches line 47. -/
structure Host where
  importObjects : String → List String
  importError : String → Option String
  exportError : String → ExportConfig → Option String
  getsize : String → Except String Nat

/-- `bpy.ops.import_scene.gltf(filepath=...)` (line 17), on success: appends
the file's objects to the scene and leaves them selected (modelled from
Blender's documented importer semantics). -/
def opImportGltf (host : Host) (path : String) (st : BpyState) : BpyState :=
  { objects := st.objects ++ host.importObjects path,
    selected := host.importObjects path }

/-- Outcome of one run of the script: the events performed in order, the scene
objects when the run ended, the uncaught exception (if any) that terminated the
process, and the compression ratio of line 51 when it was reached. -/
structure RunResult where
  trace : List Event
  finalScene : List String
  error : Option PyError
  ratio : Option ℚ
deriving DecidableEq, Repr

/-- The whole script `compress_glb.py`, line by line.  Control flow is the
straight line of the source; any exception (from argument parsing, a Blender
operator, `getsize`, or the division on line 51) ends the run there, uncaught. -/
def runScript (host : Host) (st0 : BpyState) (argv : List String) : RunResult :=
  match parseArgs argv with
  | .error e => ⟨[], st0.objects, some e, none⟩
  | .ok (input_file, output_file) =>
    let t0 : List Event :=
      [.printed ("Compressing " ++ input_file ++ " -> " ++ output_file),
       .selectAll "SELECT", .deleteObjects, .printed "Importing GLB..."]
    let st1 := opDelete (opSelectAllSelect st0)
    match host.importError input_file with
    | some msg => ⟨t0 ++ [.importGltf input_file], st1.objects,
        some (.hostError msg), none⟩
    | none =>
      let st2 := opImportGltf host input_file st1
      let t1 : List Event := t0 ++
        [.importGltf input_file,
         .printed "Skipping texture optimization (using original textures)",
         .printed "Skipping mesh decimation (preserving morph targets for facial animation)",
         .printed "Exporting compressed GLB..."]
      match host.exportError output_file scriptExportConfig with
      | some msg =>
          ⟨t1 ++ [.exportGltf output_file scriptExportConfig st2.objects],
           st2.objects, some (.hostError msg), none⟩
      | none =>
        let t2 : List Event := t1 ++
          [.exportGltf output_file scriptExportConfig st2.objects,
           .printed "Compression complete!"]
        match host.getsize input_file with
        | .error _ => ⟨t2 ++ [.getSize input_file], st2.objects,
            some .osError, none⟩
        | .ok nIn =>
          match host.getsize output_file with
          | .error _ => ⟨t2 ++ [.getSize input_file, .getSize output_file],
              st2.objects, some .osError, none⟩
          | .ok nOut =>
            let input_size : ℚ := (nIn : ℚ) / (1024 * 1024)
            let output_size : ℚ := (nOut : ℚ) / (1024 * 1024)
            let t3 : List Event := t2 ++
              [.getSize input_file, .getSize output_file,
               .printedInputSize input_size, .printedOutputSize output_size]
            if input_size = 0 then
              ⟨t3, st2.objects, some .zeroDivisionError, none⟩
            else
              let ratio : ℚ := (1 - output_size / input_size) * 100
              ⟨t3 ++ [.printedRatio ratio], st2.objects, none, some ratio⟩

/-- Events of lines 9-16: the opening print, scene clearing, and the
pre-import print. -/
def headEvents (inp outp : String) : List Event :=
  [.printed ("Compressing " ++ inp ++ " -> " ++ outp),
   .selectAll "SELECT", .deleteObjects, .printed "Importing GLB..."]

/-- Events of lines 17-28: the import call and the three progress prints. -/
def importEvents (inp : String) : List Event :=
  [.importGltf inp,
   .printed "Skipping texture optimization (using original textures)",
   .printed "Skipping mesh decimation (preserving morph targets for facial animation)",
   .printed "Exporting compressed GLB..."]

/-- Events of lines 29-44: the export call (with the scene it sees) and the
completion print. -/
def exportEvents (host : Host) (inp outp : String) : List Event :=
  [.exportGltf outp scriptExportConfig (host.importObjects inp),
   .printed "Compression complete!"]

/-- Recognizer for the import-call event. -/
def Event.isImportEvent : Event → Bool
  | .importGltf _ => true
  | _ => false

/-- Recognizer for the export-call event. -/
def Event.isExportEvent : Event → Bool
  | .exportGltf _ _ _ => true
  | _ => false

/-- Recognizer for the `os.path.getsize` query event. -/
def Event.isGetSizeEvent : Event → Bool
  | .getSize _ => true
  | _ => false

/-- A concrete well-behaved host: importing yields two objects, nothing
raises, the input weighs 2 MiB and every other path 1 MiB. -/
def sampleHost : Host where
  importObjects _ := ["Armature", "Mesh"]
  importError _ := none
  exportError _ _ := none
  getsize p := if p = "in.glb" then .ok 2097152 else .ok 1048576

/-- A host whose input file is empty (zero bytes). -/
def zeroHost : Host where
  importObjects _ := []
  importError _ := none
  exportError _ _ := none
  getsize p := if p = "empty.glb" then .ok 0 else .ok 4096

/-- A host whose importer raises on every file. -/
def brokenHost : Host where
  importObjects _ := []
  importError _ := some "unreadable input"
  exportError _ _ := none
  getsize _ := .ok 1

/-- A typical Blender command line as seen by the script through `sys.argv`. -/
def sampleArgv : List String :=
  ["blender", "--background", "--python", "compress_glb.py", "--",
   "in.glb", "out.glb"]

/-- Blender's default scene: the three default objects, none selected. -/
def defaultScene : BpyState := ⟨["Cube", "Camera", "Light"], []⟩

/-- Clearing the scene (lines 12-13) empties it, whatever it held. -/
theorem clearScene (st : BpyState) :
    opDelete (opSelectAllSelect st) = ⟨[], []⟩ := by
  simp only [opDelete, opSelectAllSelect, BpyState.mk.injEq, and_true]
  rw [List.filter_eq_nil_iff]
  intro a ha
  simpa using ha

/-- A failed argument parse ends the run with nothing done. -/
theorem runScript_eq_parseError {host : Host} {st : BpyState} {argv : List String}
    {e : PyError} (hp : parseArgs argv = .error e) :
    runScript host st argv = ⟨[], st.objects, some e, none⟩ := by
  unfold runScript; rw [hp]

/-- A failed import ends the run right after the import call; the scene was
already cleared. -/
theorem runScript_eq_importError {host : Host} {st : BpyState} {argv : List String}
    {inp outp msg : String}
    (hp : parseArgs argv = .ok (inp, outp))
    (hi : host.importError inp = some msg) :
    runScript host st argv =
      ⟨headEvents inp outp ++ [.importGltf inp], [],
       some (.hostError msg), none⟩ := by
  unfold runScript
  rw [hp]
  dsimp only
  rw [hi, clearScene]
  rfl

/-- A failed export ends the run right after the export call. -/
theorem runScript_eq_exportError {host : Host} {st : BpyState} {argv : List String}
    {inp outp msg : String}
    (hp : parseArgs argv = .ok (inp, outp))
    (hi : host.importError inp = none)
    (he : host.exportError outp scriptExportConfig = some msg) :
    runScript host st argv =
      ⟨headEvents inp outp ++ importEvents inp ++
        [.exportGltf outp scriptExportConfig (host.importObjects inp)],
       host.importObjects inp, some (.hostError msg), none⟩ := by
  unfold runScript
  rw [hp]
  dsimp only
  rw [hi, clearScene]
  dsimp only
  rw [he]
  simp [headEvents, importEvents, opImportGltf]

/-- A failed `getsize` on the input ends the run right after that query. -/
theorem runScript_eq_sizeInError {host : Host} {st : BpyState} {argv : List String}
    {inp outp emsg : String}
    (hp : parseArgs argv = .ok (inp, outp))
    (hi : host.importError inp = none)
    (he : host.exportError outp scriptExportConfig = none)
    (hsin : host.getsize inp = .error emsg) :
    runScript host st argv =
      ⟨headEvents inp outp ++ importEvents inp ++ exportEvents host inp outp ++
        [.getSize inp],
       host.importObjects inp, some .osError, none⟩ := by
  unfold runScript
  rw [hp]
  dsimp only
  rw [hi, clearScene]
  dsimp only
  rw [he, hsin]
  simp [headEvents, importEvents, exportEvents, opImportGltf]

/-- A failed `getsize` on the output ends the run right after that query. -/
theorem runScript_eq_sizeOutError {host : Host} {st : BpyState} {argv : List String}
    {inp outp emsg : String} {nIn : Nat}
    (hp : parseArgs argv = .ok (inp, outp))
    (hi : host.importError inp = none)
    (he : host.exportError outp scriptExportConfig = none)
    (hsin : host.getsize inp = .ok nIn)
    (hsout : host.getsize outp = .error emsg) :
    runScript host st argv =
      ⟨headEvents inp outp ++ importEvents inp ++ exportEvents host inp outp ++
        [.getSize inp, .getSize outp],
       host.importObjects inp, some .osError, none⟩ := by
  unfold runScript
  rw [hp]
  dsimp only
  rw [hi, clearScene]
  dsimp only
  rw [he, hsin, hsout]
  simp [headEvents, importEvents, exportEvents, opImportGltf]

/-- A zero-byte input makes line 51 divide by zero, after the size prints. -/
theorem runScript_eq_zeroInput {host : Host} {st : BpyState} {argv : List String}
    {inp outp : String} {nOut : Nat}
    (hp : parseArgs argv = .ok (inp, outp))
    (hi : host.importError inp = none)
    (he : host.exportError outp scriptExportConfig = none)
    (hsin : host.getsize inp = .ok 0)
    (hsout : host.getsize outp = .ok nOut) :
    runScript host st argv =
      ⟨headEvents inp outp ++ importEvents inp ++ exportEvents host inp outp ++
        [.getSize inp, .getSize outp,
         .printedInputSize 0, .printedOutputSize ((nOut : ℚ) / (1024 * 1024))],
       host.importObjects inp, some .zeroDivisionError, none⟩ := by
  unfold runScript
  rw [hp]
  dsimp only
  rw [hi, clearScene]
  dsimp only
  rw [he, hsin, hsout]
  simp [headEvents, importEvents, exportEvents, opImportGltf]

/-- The fully successful run: every event in order, no error, and the ratio of
line 51. -/
theorem runScript_eq_ok {host : Host} {st : BpyState} {argv : List String}
    {inp outp : String} {nIn nOut : Nat}
    (hp : parseArgs argv = .ok (inp, outp))
    (hi : host.importError inp = none)
    (he : host.exportError outp scriptExportConfig = none)
    (hsin : host.getsize inp = .ok nIn)
    (hsout : host.getsize outp = .ok nOut)
    (hz : nIn ≠ 0) :
    runScript host st argv =
      ⟨headEvents inp outp ++ importEvents inp ++ exportEvents host inp outp ++
        [.getSize inp, .getSize outp,
         .printedInputSize ((nIn : ℚ) / (1024 * 1024)),
         .printedOutputSize ((nOut : ℚ) / (1024 * 1024)),
         .printedRatio ((1 - ((nOut : ℚ) / (1024 * 1024)) /
            ((nIn : ℚ) / (1024 * 1024))) * 100)],
       host.importObjects inp, none,
       some ((1 - ((nOut : ℚ) / (1024 * 1024)) /
            ((nIn : ℚ) / (1024 * 1024))) * 100)⟩ := by
  unfold runScript
  rw [hp]
  dsimp only
  rw [hi, clearScene]
  dsimp only
  rw [he, hsin, hsout]
  dsimp only
  rw [if_neg (div_ne_zero (Nat.cast_ne_zero.2 hz) (by norm_num))]
  simp [headEvents, importEvents, exportEvents, opImportGltf]

/-- Python `list.index` raises `ValueError` when the element is absent. -/
theorem pyIndex_of_not_mem {xs : List String} {a : String} (h : a ∉ xs) :
    pyIndex xs a = .error .valueError := by
  induction xs with
  | nil => rfl
  | cons x rest ih =>
    simp only [List.mem_cons, not_or] at h
    rw [pyIndex, if_neg (fun hxa => h.1 hxa.symm), ih h.2]
    rfl

/-- Python `list.index` finds the position of the first occurrence. -/
theorem pyIndex_append {pre : List String} {a : String} (rest : List String)
    (h : a ∉ pre) : pyIndex (pre ++ a :: rest) a = .ok pre.length := by
  induction pre with
  | nil => simp [pyIndex]
  | cons x pre ih =>
    simp only [List.mem_cons, not_or] at h
    rw [List.cons_append, pyIndex, if_neg (fun hxa => h.1 hxa.symm), ih h.2]
    rfl

/-- Subscripting past a list prefix reads from the suffix. -/
theorem pyGetItem_append (pre l : List String) (n : Nat) :
    pyGetItem (pre ++ l) (pre.length + n) = pyGetItem l n := by
  induction pre with
  | nil => simp
  | cons a pre ih =>
    have hlen : (a :: pre).length + n = (pre.length + n) + 1 := by
      simp only [List.length_cons]
      omega
    rw [List.cons_append, hlen]
    exact ih

/-- Lines 6-7 pick the two arguments right after the first `"--"`. -/
theorem parseArgs_eq_ok (pre post : List String) (x y : String)
    (h : "--" ∉ pre) :
    parseArgs (pre ++ "--" :: x :: y :: post) = .ok (x, y) := by
  have hx : pyGetItem (pre ++ "--" :: x :: y :: post) (pre.length + 1) = .ok x := by
    rw [pyGetItem_append]; rfl
  have hy : pyGetItem (pre ++ "--" :: x :: y :: post) (pre.length + 2) = .ok y := by
    rw [pyGetItem_append]; rfl
  simp [parseArgs, pyIndex_append _ h, hx, hy]

/-- Without a `"--"` separator, line 6 raises `ValueError`. -/
theorem parseArgs_no_sep {argv : List String} (h : "--" ∉ argv) :
    parseArgs argv = .error .valueError := by
  simp [parseArgs, pyIndex_of_not_mem h]

/-- With fewer than two arguments after the first `"--"`, subscripting raises
`IndexError`. -/
theorem parseArgs_short {pre rest : List String} (h : "--" ∉ pre)
    (hlen : rest.length < 2) :
    parseArgs (pre ++ "--" :: rest) = .error .indexError := by
  match rest with
  | [] =>
    have h1 : pyGetItem (pre ++ ["--"]) (pre.length + 1) = .error .indexError := by
      rw [pyGetItem_append]; rfl
    simp [parseArgs, pyIndex_append _ h, h1]
  | [r] =>
    have h1 : pyGetItem (pre ++ ["--", r]) (pre.length + 1) = .ok r := by
      rw [pyGetItem_append]; rfl
    have h2 : pyGetItem (pre ++ ["--", r]) (pre.length + 2) = .error .indexError := by
      rw [pyGetItem_append]; rfl
    simp [parseArgs, pyIndex_append _ h, h1, h2]
  | _ :: _ :: _ => simp only [List.length_cons] at hlen; omega

/-- Every export event a run can emit carries the fixed script configuration. -/
theorem exportConfig_of_mem {host : Host} {st : BpyState} {argv : List String}
    {p : String} {cfg : ExportConfig} {objs : List String}
    (h : Event.exportGltf p cfg objs ∈ (runScript host st argv).trace) :
    cfg = scriptExportConfig := by
  rcases hp : parseArgs argv with e | ⟨inp, outp⟩
  · rw [runScript_eq_parseError hp] at h
    simp at h
  · rcases hi : host.importError inp with _ | msg
    · rcases he : host.exportError outp scriptExportConfig with _ | msg
      · rcases hsin : host.getsize inp with emsg | nIn
        · rw [runScript_eq_sizeInError hp hi he hsin] at h
          simp [headEvents, importEvents, exportEvents] at h
          exact h.2.1
        · rcases hsout : host.getsize outp with emsg | nOut
          · rw [runScript_eq_sizeOutError hp hi he hsin hsout] at h
            simp [headEvents, importEvents, exportEvents] at h
            exact h.2.1
          · by_cases hz : nIn = 0
            · subst hz
              rw [runScript_eq_zeroInput hp hi he hsin hsout] at h
              simp [headEvents, importEvents, exportEvents] at h
              exact h.2.1
            · rw [runScript_eq_ok hp hi he hsin hsout hz] at h
              simp [headEvents, importEvents, exportEvents] at h
              exact h.2.1
      · rw [runScript_eq_exportError hp hi he] at h
        simp [headEvents, importEvents] at h
        exact h.2.1
    · rw [runScript_eq_importError hp hi] at h
      simp [headEvents] at h

/-- The script contains no `sys.exit` call: no run emits an explicit exit
code. -/
theorem sysExit_not_mem (host : Host) (st : BpyState) (argv : List String)
    (code : Nat) : Event.sysExit code ∉ (runScript host st argv).trace := by
  rcases hp : parseArgs argv with e | ⟨inp, outp⟩
  · rw [runScript_eq_parseError hp]
    simp
  · rcases hi : host.importError inp with _ | msg
    · rcases he : host.exportError outp scriptExportConfig with _ | msg
      · rcases hsin : host.getsize inp with emsg | nIn
        · rw [runScript_eq_sizeInError hp hi he hsin]
          simp [headEvents, importEvents, exportEvents]
        · rcases hsout : host.getsize outp with emsg | nOut
          · rw [runScript_eq_sizeOutError hp hi he hsin hsout]
            simp [headEvents, importEvents, exportEvents]
          · by_cases hz : nIn = 0
            · subst hz
              rw [runScript_eq_zeroInput hp hi he hsin hsout]
              simp [headEvents, importEvents, exportEvents]
            · rw [runScript_eq_ok hp hi he hsin hsout hz]
              simp [headEvents, importEvents, exportEvents]
      · rw [runScript_eq_exportError hp hi he]
        simp [headEvents, importEvents]
    · rw [runScript_eq_importError hp hi]
      simp [headEvents]

/-- C1: whenever the script invokes the GLB exporter, it passes exactly the
fixed configuration the spec states: Draco compression enabled with level 6,
position quantization 14 bits, normal quantization 10 bits, texcoord
quantization 12 bits, and the animation/morph/skin preservation flags all
true. -/
theorem claim1_fixed_export_configuration
    {host : Host} {st : BpyState} {argv : List String}
    {p : String} {cfg : ExportConfig} {objs : List String}
    (h : Event.exportGltf p cfg objs ∈ (runScript host st argv).trace) :
    cfg.export_draco_mesh_compression_enable = true ∧
    cfg.export_draco_mesh_compression_level = 6 ∧
    cfg.export_draco_position_quantization = 14 ∧
    cfg.export_draco_normal_quantization = 10 ∧
    cfg.export_draco_texcoord_quantization = 12 ∧
    cfg.export_animations = true ∧
    cfg.export_morph = true ∧
    cfg.export_skins = true := by
  rw [exportConfig_of_mem h]
  exact ⟨rfl, rfl, rfl, rfl, rfl, rfl, rfl, rfl⟩

/-- Witness for C1 on a concrete full run. -/
theorem claim1_witness :
    Event.exportGltf "out.glb" scriptExportConfig ["Armature", "Mesh"] ∈
      (runScript sampleHost defaultScene sampleArgv).trace ∧
    scriptExportConfig.export_draco_mesh_compression_enable = true ∧
    scriptExportConfig.export_draco_mesh_compression_level = 6 ∧
    scriptExportConfig.export_draco_position_quantization = 14 ∧
    scriptExportConfig.export_draco_normal_quantization = 10 ∧
    scriptExportConfig.export_draco_texcoord_quantization = 12 ∧
    scriptExportConfig.export_animations = true ∧
    scriptExportConfig.export_morph = true ∧
    scriptExportConfig.export_skins = true :=
  have hmem : Event.exportGltf "out.glb" scriptExportConfig
      ["Armature", "Mesh"] ∈
      (runScript sampleHost defaultScene sampleArgv).trace := by
    rw [runScript_eq_ok
      (show parseArgs sampleArgv = Except.ok ("in.glb", "out.glb") from rfl)
      rfl rfl
      (show sampleHost.getsize "in.glb" = Except.ok 2097152 from rfl)
      (show sampleHost.getsize "out.glb" = Except.ok 1048576 from rfl)
      (by decide)]
    simp [headEvents, importEvents, exportEvents, sampleHost]
  ⟨hmem, claim1_fixed_export_configuration hmem⟩

/-- C3: when the command line contains `"--"` followed by at least two
arguments, the script takes the first argument after the (first) `"--"` as the
input path and the second as the output path. -/
theorem claim3_args_after_separator (pre post : List String) (x y : String)
    (h : "--" ∉ pre) :
    parseArgs (pre ++ "--" :: x :: y :: post) = .ok (x, y) :=
  parseArgs_eq_ok pre post x y h

/-- Witness for C3 on a concrete Blender command line. -/
theorem claim3_witness :
    "--" ∉ ["blender", "--background", "--python", "compress_glb.py"] ∧
    parseArgs (["blender", "--background", "--python", "compress_glb.py"] ++
      "--" :: "in.glb" :: "out.glb" :: []) = .ok ("in.glb", "out.glb") :=
  ⟨by decide, claim3_args_after_separator _ _ _ _ (by decide)⟩

/-- C4: the size-ratio summary of line 51 equals `(1 - out/in) * 100` percent
of the byte sizes: the intermediate conversion of both sizes to megabytes
cancels exactly. -/
theorem claim4_ratio_formula {host : Host} {st : BpyState} {argv : List String}
    {inp outp : String} {nIn nOut : Nat}
    (hp : parseArgs argv = .ok (inp, outp))
    (hi : host.importError inp = none)
    (he : host.exportError outp scriptExportConfig = none)
    (hsin : host.getsize inp = .ok nIn)
    (hsout : host.getsize outp = .ok nOut)
    (hz : nIn ≠ 0) :
    (runScript host st argv).ratio =
      some ((1 - (nOut : ℚ) / (nIn : ℚ)) * 100) ∧
    Event.printedRatio ((1 - (nOut : ℚ) / (nIn : ℚ)) * 100) ∈
      (runScript host st argv).trace := by
  have key : ((nOut : ℚ) / (1024 * 1024)) / ((nIn : ℚ) / (1024 * 1024)) =
      (nOut : ℚ) / (nIn : ℚ) := by
    rw [div_div_div_comm, div_self (by norm_num : (1024 * 1024 : ℚ) ≠ 0),
      div_one]
  rw [runScript_eq_ok hp hi he hsin hsout hz, key]
  exact ⟨rfl, by simp [headEvents, importEvents, exportEvents]⟩

/-- Witness for C4: a 2 MiB input compressed to 1 MiB reports 50 percent. -/
theorem claim4_witness :
    parseArgs sampleArgv = .ok ("in.glb", "out.glb") ∧
    sampleHost.getsize "in.glb" = .ok 2097152 ∧
    sampleHost.getsize "out.glb" = .ok 1048576 ∧
    (runScript sampleHost defaultScene sampleArgv).ratio =
      some ((1 - ((1048576 : Nat) : ℚ) / ((2097152 : Nat) : ℚ)) * 100) :=
  ⟨rfl, rfl, rfl,
   (claim4_ratio_formula
     (show parseArgs sampleArgv = Except.ok ("in.glb", "out.glb") from rfl)
     rfl rfl
     (show sampleHost.getsize "in.glb" = Except.ok 2097152 from rfl)
     (show sampleHost.getsize "out.glb" = Except.ok 1048576 from rfl)
     (by decide)).1⟩

/-- C5: the script handles no error itself: a parse failure ends the run with
that exception and nothing done, a raising Blender import or export call ends
the run with that same exception, and no run ever emits an explicit exit
code. -/
theorem claim5_no_error_handling (host : Host) (st : BpyState)
    (argv : List String) :
    (∀ e, parseArgs argv = .error e →
      runScript host st argv = ⟨[], st.objects, some e, none⟩) ∧
    (∀ inp outp msg, parseArgs argv = .ok (inp, outp) →
      host.importError inp = some msg →
      (runScript host st argv).error = some (.hostError msg)) ∧
    (∀ inp outp msg, parseArgs argv = .ok (inp, outp) →
      host.importError inp = none →
      host.exportError outp scriptExportConfig = some msg →
      (runScript host st argv).error = some (.hostError msg)) ∧
    (∀ code, Event.sysExit code ∉ (runScript host st argv).trace) := by
  refine ⟨fun e hp => runScript_eq_parseError hp, ?_, ?_,
    sysExit_not_mem host st argv⟩
  · intro inp outp msg hp hi
    rw [runScript_eq_importError hp hi]
  · intro inp outp msg hp hi he
    rw [runScript_eq_exportError hp hi he]

/-- Witness for C5: a missing separator, a raising importer, and the absence
of explicit exit codes, each at concrete inputs. -/
theorem claim5_witness :
    parseArgs ["blender"] = .error .valueError ∧
    runScript sampleHost defaultScene ["blender"] =
      ⟨[], ["Cube", "Camera", "Light"], some .valueError, none⟩ ∧
    brokenHost.importError "in.glb" = some "unreadable input" ∧
    (runScript brokenHost defaultScene sampleArgv).error =
      some (.hostError "unreadable input") ∧
    Event.sysExit 0 ∉ (runScript sampleHost defaultScene sampleArgv).trace :=
  ⟨rfl,
   (claim5_no_error_handling sampleHost defaultScene ["blender"]).1
     .valueError rfl,
   rfl,
   (claim5_no_error_handling brokenHost defaultScene sampleArgv).2.1
     "in.glb" "out.glb" "unreadable input" rfl rfl,
   (claim5_no_error_handling sampleHost defaultScene sampleArgv).2.2.2 0⟩

/-- C6: control flow is strictly linear: in a run whose import and export
calls succeed, the input is imported exactly once and then the output exported
exactly once, in that order, and the only further file accesses are the (at
most two) final size queries. -/
theorem claim6_linear_control_flow {host : Host} {st : BpyState}
    {argv : List String} {inp outp : String}
    (hp : parseArgs argv = .ok (inp, outp))
    (hi : host.importError inp = none)
    (he : host.exportError outp scriptExportConfig = none) :
    (runScript host st argv).trace.filter
        (fun e => e.isImportEvent || e.isExportEvent) =
      [.importGltf inp,
       .exportGltf outp scriptExportConfig (host.importObjects inp)] ∧
    List.Sublist ((runScript host st argv).trace.filter Event.isGetSizeEvent)
      [.getSize inp, .getSize outp] := by
  rcases hsin : host.getsize inp with emsg | nIn
  · rw [runScript_eq_sizeInError hp hi he hsin]
    exact ⟨rfl, List.cons_sublist_cons.2 (List.nil_sublist _)⟩
  · rcases hsout : host.getsize outp with emsg | nOut
    · rw [runScript_eq_sizeOutError hp hi he hsin hsout]
      exact ⟨rfl, List.Sublist.refl _⟩
    · by_cases hz : nIn = 0
      · subst hz
        rw [runScript_eq_zeroInput hp hi he hsin hsout]
        exact ⟨rfl, List.Sublist.refl _⟩
      · rw [runScript_eq_ok hp hi he hsin hsout hz]
        exact ⟨rfl, List.Sublist.refl _⟩

/-- Witness for C6 on a concrete full run. -/
theorem claim6_witness :
    parseArgs sampleArgv = .ok ("in.glb", "out.glb") ∧
    (runScript sampleHost defaultScene sampleArgv).trace.filter
        (fun e => e.isImportEvent || e.isExportEvent) =
      [.importGltf "in.glb",
       .exportGltf "out.glb" scriptExportConfig ["Armature", "Mesh"]] ∧
    List.Sublist
      ((runScript sampleHost defaultScene sampleArgv).trace.filter
        Event.isGetSizeEvent)
      [.getSize "in.glb", .getSize "out.glb"] :=
  have h := claim6_linear_control_flow
    (show parseArgs sampleArgv = Except.ok ("in.glb", "out.glb") from rfl)
    (show sampleHost.importError "in.glb" = none from rfl)
    (show sampleHost.exportError "out.glb" scriptExportConfig = none from rfl)
  ⟨rfl, h.1, h.2⟩

/-- C7: the exporter configuration is a fixed constant: any two runs, whatever
their hosts, initial scenes, command lines, or input contents, pass identical
compression parameters to the exporter. -/
theorem claim7_config_input_independent
    {host₁ host₂ : Host} {st₁ st₂ : BpyState} {argv₁ argv₂ : List String}
    {p₁ p₂ : String} {cfg₁ cfg₂ : ExportConfig} {objs₁ objs₂ : List String}
    (h₁ : Event.exportGltf p₁ cfg₁ objs₁ ∈ (runScript host₁ st₁ argv₁).trace)
    (h₂ : Event.exportGltf p₂ cfg₂ objs₂ ∈ (runScript host₂ st₂ argv₂).trace) :
    cfg₁ = cfg₂ := by
  rw [exportConfig_of_mem h₁, exportConfig_of_mem h₂]

/-- Witness for C7: two runs with different hosts, scenes and command lines. -/
theorem claim7_witness :
    Event.exportGltf "out.glb" scriptExportConfig ["Armature", "Mesh"] ∈
      (runScript sampleHost defaultScene sampleArgv).trace ∧
    Event.exportGltf "o.glb" scriptExportConfig [] ∈
      (runScript zeroHost ⟨[], []⟩ ["--", "empty.glb", "o.glb"]).trace ∧
    scriptExportConfig = scriptExportConfig :=
  have h₁ : Event.exportGltf "out.glb" scriptExportConfig
      ["Armature", "Mesh"] ∈
      (runScript sampleHost defaultScene sampleArgv).trace := by
    rw [runScript_eq_ok
      (show parseArgs sampleArgv = Except.ok ("in.glb", "out.glb") from rfl)
      rfl rfl
      (show sampleHost.getsize "in.glb" = Except.ok 2097152 from rfl)
      (show sampleHost.getsize "out.glb" = Except.ok 1048576 from rfl)
      (by decide)]
    simp [headEvents, importEvents, exportEvents, sampleHost]
  have h₂ : Event.exportGltf "o.glb" scriptExportConfig [] ∈
      (runScript zeroHost ⟨[], []⟩ ["--", "empty.glb", "o.glb"]).trace := by
    rw [runScript_eq_zeroInput
      (show parseArgs ["--", "empty.glb", "o.glb"] =
        Except.ok ("empty.glb", "o.glb") from rfl)
      rfl rfl
      (show zeroHost.getsize "empty.glb" = Except.ok 0 from rfl)
      (show zeroHost.getsize "o.glb" = Except.ok 4096 from rfl)]
    simp [headEvents, importEvents, exportEvents, zeroHost]
  ⟨h₁, h₂, claim7_config_input_independent h₁ h₂⟩

/-- C8: a command line without `"--"`, or with fewer than two arguments after
the first `"--"`, makes argument parsing raise (`ValueError` respectively
`IndexError`): the run ends with an empty trace — no file read, no scene
object touched, no output written. -/
theorem claim8_bad_arguments (host : Host) (st : BpyState) :
    (∀ argv, "--" ∉ argv →
      runScript host st argv = ⟨[], st.objects, some .valueError, none⟩) ∧
    (∀ pre rest, "--" ∉ pre → rest.length < 2 →
      runScript host st (pre ++ "--" :: rest) =
        ⟨[], st.objects, some .indexError, none⟩) := by
  constructor
  · intro argv h
    exact runScript_eq_parseError (parseArgs_no_sep h)
  · intro pre rest h hlen
    exact runScript_eq_parseError (parseArgs_short h hlen)

/-- Witness for C8: a separator-free command line and one with a single
argument after `"--"`. -/
theorem claim8_witness :
    runScript sampleHost defaultScene ["blender", "-b"] =
      ⟨[], ["Cube", "Camera", "Light"], some .valueError, none⟩ ∧
    runScript sampleHost defaultScene (["blender"] ++ "--" :: ["in.glb"]) =
      ⟨[], ["Cube", "Camera", "Light"], some .indexError, none⟩ :=
  ⟨(claim8_bad_arguments sampleHost defaultScene).1 ["blender", "-b"]
     (by decide),
   (claim8_bad_arguments sampleHost defaultScene).2 ["blender"] ["in.glb"]
     (by decide) (by decide)⟩

/-- C9: with a zero-byte input file, the run ends in `ZeroDivisionError` at
the ratio computation of line 51: the output has already been exported, but
the ratio line is never printed. -/
theorem claim9_zero_byte_input {host : Host} {st : BpyState}
    {argv : List String} {inp outp : String} {nOut : Nat}
    (hp : parseArgs argv = .ok (inp, outp))
    (hi : host.importError inp = none)
    (he : host.exportError outp scriptExportConfig = none)
    (hsin : host.getsize inp = .ok 0)
    (hsout : host.getsize outp = .ok nOut) :
    (runScript host st argv).error = some .zeroDivisionError ∧
    Event.exportGltf outp scriptExportConfig (host.importObjects inp) ∈
      (runScript host st argv).trace ∧
    (∀ q, Event.printedRatio q ∉ (runScript host st argv).trace) ∧
    (runScript host st argv).ratio = none := by
  rw [runScript_eq_zeroInput hp hi he hsin hsout]
  refine ⟨rfl, ?_, ?_, rfl⟩
  · simp [headEvents, importEvents, exportEvents]
  · intro q
    simp [headEvents, importEvents, exportEvents]

/-- Witness for C9: a host whose input file weighs zero bytes. -/
theorem claim9_witness :
    parseArgs ["--", "empty.glb", "o.glb"] = .ok ("empty.glb", "o.glb") ∧
    zeroHost.getsize "empty.glb" = .ok 0 ∧
    (runScript zeroHost defaultScene ["--", "empty.glb", "o.glb"]).error =
      some .zeroDivisionError ∧
    Event.printedRatio 0 ∉
      (runScript zeroHost defaultScene ["--", "empty.glb", "o.glb"]).trace :=
  have h := claim9_zero_byte_input
    (show parseArgs ["--", "empty.glb", "o.glb"] =
      Except.ok ("empty.glb", "o.glb") from rfl)
    (show zeroHost.importError "empty.glb" = none from rfl)
    (show zeroHost.exportError "o.glb" scriptExportConfig = none from rfl)
    (show zeroHost.getsize "empty.glb" = Except.ok 0 from rfl)
    (show zeroHost.getsize "o.glb" = Except.ok 4096 from rfl)
  ⟨rfl, rfl, h.1, h.2.2.1 0⟩

/-- C10: the scene is cleared before the import: whatever the host scene held
at startup, the export call sees exactly the objects imported from the input
file, the select-all and delete calls precede the import in the trace, and the
final scene is the imported content. -/
theorem claim10_scene_cleared_before_import {host : Host} {st : BpyState}
    {argv : List String} {inp outp : String}
    (hp : parseArgs argv = .ok (inp, outp))
    (hi : host.importError inp = none)
    (he : host.exportError outp scriptExportConfig = none) :
    Event.exportGltf outp scriptExportConfig (host.importObjects inp) ∈
      (runScript host st argv).trace ∧
    (∃ rest, (runScript host st argv).trace =
      headEvents inp outp ++ importEvents inp ++ rest) ∧
    (runScript host st argv).finalScene = host.importObjects inp := by
  rcases hsin : host.getsize inp with emsg | nIn
  · rw [runScript_eq_sizeInError hp hi he hsin]
    exact ⟨by simp [headEvents, importEvents, exportEvents],
      ⟨exportEvents host inp outp ++ [Event.getSize inp], by simp⟩, rfl⟩
  · rcases hsout : host.getsize outp with emsg | nOut
    · rw [runScript_eq_sizeOutError hp hi he hsin hsout]
      exact ⟨by simp [headEvents, importEvents, exportEvents],
        ⟨exportEvents host inp outp ++ [Event.getSize inp, Event.getSize outp],
         by simp⟩, rfl⟩
    · by_cases hz : nIn = 0
      · subst hz
        rw [runScript_eq_zeroInput hp hi he hsin hsout]
        exact ⟨by simp [headEvents, importEvents, exportEvents],
          ⟨exportEvents host inp outp ++
            [Event.getSize inp, Event.getSize outp, Event.printedInputSize 0,
             Event.printedOutputSize ((nOut : ℚ) / (1024 * 1024))],
           by simp⟩, rfl⟩
      · rw [runScript_eq_ok hp hi he hsin hsout hz]
        exact ⟨by simp [headEvents, importEvents, exportEvents],
          ⟨exportEvents host inp outp ++
            [Event.getSize inp, Event.getSize outp,
             Event.printedInputSize ((nIn : ℚ) / (1024 * 1024)),
             Event.printedOutputSize ((nOut : ℚ) / (1024 * 1024)),
             Event.printedRatio ((1 - ((nOut : ℚ) / (1024 * 1024)) /
               ((nIn : ℚ) / (1024 * 1024))) * 100)],
           by simp⟩, rfl⟩

/-- Witness for C10: a run starting from Blender's default three-object
scene ends with only the imported objects. -/
theorem claim10_witness :
    parseArgs sampleArgv = .ok ("in.glb", "out.glb") ∧
    defaultScene.objects = ["Cube", "Camera", "Light"] ∧
    (runScript sampleHost defaultScene sampleArgv).finalScene =
      ["Armature", "Mesh"] :=
  ⟨rfl, rfl,
   (claim10_scene_cleared_before_import
     (show parseArgs sampleArgv = Except.ok ("in.glb", "out.glb") from rfl)
     (show sampleHost.importError "in.glb" = none from rfl)
     (show sampleHost.exportError "out.glb" scriptExportConfig = none
       from rfl)).2.2⟩

end CompressGlb
